import Mathlib

/-!
Shallow embedding of the transaction-entry and categorization workflow of
the expense-pilot-go repository, covering:
  - `AddTransactionForm.tsx`: `filteredCategories`, `allAccounts`,
    `handleSubmit` (validation, amount parsing, create call, reset / error
    handling), and the direction-toggle handler;
  - `CategoryManager.tsx`: `incomeCategories`, `expenseCategories` and the
    default-category suggestion pipeline (filter + slice(0, 6)).

JavaScript amount parsing (`parseFloat` after `amount.replace(',', '.')`) is
modelled over ℚ together with the IEEE infinities, since `parseFloat`
recognises the literal `Infinity`; `NaN` is modelled as `none`.
React-specific glue (event objects, hooks, the `loading` flag, JSX icons)
is outside the model; the asynchronous store call is a function parameter
and its try/catch is embedded by matching on the call result.
-/

attribute [local semireducible] Rat.add Rat.mul Rat.sub Rat.inv

namespace ExpensePilot

/-! ## JavaScript number model -/

/-- Result of a successful `parseFloat`: a finite value (modelled in ℚ) or
one of the two infinities.  `NaN` is represented by `Option.none` at the
`parseFloat` call site. -/
inductive JSNum where
  | finite (q : ℚ)
  | posInf
  | negInf
deriving DecidableEq

/-- Numeric value of a digit string, most significant digit first. -/
def digitsVal (ds : List Char) : Nat :=
  ds.foldl (fun n c => 10 * n + (c.toNat - 48)) 0

/-- Value contributed by the digits after the decimal point. -/
def fracVal (ds : List Char) : ℚ :=
  (digitsVal ds : ℚ) / (10 : ℚ) ^ ds.length

/-- Ten to the power of a signed exponent. -/
def pow10 : Int → ℚ
  | Int.ofNat n => (10 : ℚ) ^ n
  | Int.negSucc n => 1 / (10 : ℚ) ^ (n + 1)

/-- Does `pat` occur at the start of `cs`? -/
def startsWithChars : List Char → List Char → Bool
  | [], _ => true
  | _ :: _, [] => false
  | p :: ps, c :: cs => p = c && startsWithChars ps cs

/-- Leading sign of a JS string-numeric literal; `true` means negative. -/
def parseSign : List Char → Bool × List Char
  | '-' :: cs => (true, cs)
  | '+' :: cs => (false, cs)
  | cs => (false, cs)

/-- Exponent digits (with optional sign) after the `e`/`E` marker; an
ill-formed exponent is not part of the longest valid numeric literal, so it
contributes a factor of `10 ^ 0`. -/
def expAfterMark (cs : List Char) : Int :=
  match cs with
  | '+' :: rest =>
      if rest.takeWhile Char.isDigit = [] then 0
      else (digitsVal (rest.takeWhile Char.isDigit) : Int)
  | '-' :: rest =>
      if rest.takeWhile Char.isDigit = [] then 0
      else -(digitsVal (rest.takeWhile Char.isDigit) : Int)
  | rest =>
      if rest.takeWhile Char.isDigit = [] then 0
      else (digitsVal (rest.takeWhile Char.isDigit) : Int)

/-- Optional `ExponentPart` of a JS numeric literal. -/
def expPart : List Char → Int
  | 'e' :: cs => expAfterMark cs
  | 'E' :: cs => expAfterMark cs
  | _ => 0

/-- Unsigned mantissa of a JS numeric literal: `digits`, `digits.`,
`digits.digits` or `.digits`; returns the value and the remaining input,
or `none` when no digit is present. -/
def parseMantissa (cs : List Char) : Option (ℚ × List Char) :=
  let ints := cs.takeWhile Char.isDigit
  let rest1 := cs.drop ints.length
  match rest1 with
  | '.' :: rest2 =>
      let fracs := rest2.takeWhile Char.isDigit
      if ints = [] ∧ fracs = [] then none
      else some ((digitsVal ints : ℚ) + fracVal fracs, rest2.drop fracs.length)
  | _ => if ints = [] then none else some ((digitsVal ints : ℚ), rest1)

/-- Characters of the JS `Infinity` literal. -/
def infinityChars : List Char := ['I', 'n', 'f', 'i', 'n', 'i', 't', 'y']

/-- JavaScript `parseFloat`: skip leading whitespace, read an optional sign,
then either the `Infinity` literal or the longest decimal literal
(mantissa with optional exponent); `none` models `NaN`. -/
def parseFloat (s : String) : Option JSNum :=
  let cs := s.data.dropWhile Char.isWhitespace
  let sign := parseSign cs
  if startsWithChars infinityChars sign.2 then
    some (if sign.1 then JSNum.negInf else JSNum.posInf)
  else
    match parseMantissa sign.2 with
    | none => none
    | some (m, rest) =>
        some (JSNum.finite ((if sign.1 then -m else m) * pow10 (expPart rest)))

/-- JavaScript comparison `x <= 0` on a (non-NaN) number. -/
def jsLeZero : JSNum → Bool
  | JSNum.finite q => q ≤ 0
  | JSNum.posInf => false
  | JSNum.negInf => true

/-- JS `String.prototype.replace(',', '.')`: only the first comma is
replaced. -/
def replaceFirstComma : List Char → List Char
  | [] => []
  | c :: cs => if c = ',' then '.' :: cs else c :: replaceFirstComma cs

/-- The normalization `amount.replace(',', '.')` from `handleSubmit`. -/
def normalizeAmount (s : String) : String :=
  String.mk (replaceFirstComma s.data)

/-! ## Data model -/

/-- The `transaction_type` of a category / direction of a transaction. -/
inductive Direction where
  | income
  | expense
deriving DecidableEq

/-- A category as consumed by the form components. -/
structure Category where
  id : String
  name : String
  icon : String
  color : String
  transaction_type : Direction
deriving DecidableEq

/-- An account from the Account Store; `type` holds the `account_type`
enum value (`checking`, `savings`, `credit_card`, `wallet`,
`investment`). -/
structure Account where
  id : String
  name : String
  type : String
deriving DecidableEq

/-- A credit card from the Credit Card Store. -/
structure CreditCard where
  id : String
  name : String
  bank_name : String
deriving DecidableEq

/-- Discriminant of a funding target (`type: 'account' | 'credit_card'`). -/
inductive TargetKind where
  | account
  | credit_card
deriving DecidableEq

/-- One entry of the unified `allAccounts` list.  Account entries have no
`bankName` property (`none`); the JSX `icon` element is outside the
model. -/
structure FundingTarget where
  id : String
  name : String
  type : TargetKind
  accountType : String
  bankName : Option String
deriving DecidableEq

/-- Projection of an account into the unified list. -/
def accountTarget (a : Account) : FundingTarget :=
  { id := a.id
    name := a.name
    type := TargetKind.account
    accountType := a.type
    bankName := none }

/-- Projection of a credit card into the unified list. -/
def cardTarget (c : CreditCard) : FundingTarget :=
  { id := c.id
    name := c.name
    type := TargetKind.credit_card
    accountType := "credit_card"
    bankName := some c.bank_name }

/-- The list `allAccounts` from `AddTransactionForm.tsx`: the spread of the mapped
accounts followed by the mapped credit cards. -/
def allAccounts (accounts : List Account) (creditCards : List CreditCard) :
    List FundingTarget :=
  accounts.map accountTarget ++ creditCards.map cardTarget

/-- The list `filteredCategories` from `AddTransactionForm.tsx`:
`categories.filter(cat => cat.transaction_type === type)`. -/
def filteredCategories (categories : List Category) (type : Direction) :
    List Category :=
  categories.filter (fun cat => cat.transaction_type = type)

/-- The list `incomeCategories` from `CategoryManager.tsx`. -/
def incomeCategories (categories : List Category) : List Category :=
  categories.filter (fun cat => cat.transaction_type = Direction.income)

/-- The list `expenseCategories` from `CategoryManager.tsx`. -/
def expenseCategories (categories : List Category) : List Category :=
  categories.filter (fun cat => cat.transaction_type = Direction.expense)

/-- An entry of the static default-category catalog
(`@/data/defaultCategories`), of which only the shape is consumed here. -/
structure DefaultCategory where
  name : String
  icon : String
  color : String
  transaction_type : Direction
deriving DecidableEq

/-- JS `toLowerCase()`, modelled as lower-casing every character. -/
def jsToLower (s : String) : String :=
  String.mk (s.data.map Char.toLower)

/-- The suggestion pipeline of `CategoryManager.tsx`:
`defaultCategories.filter(dc => !categories.some(ec =>
ec.name.toLowerCase() === dc.name.toLowerCase())).slice(0, 6)`. -/
def suggestedCategories (defaultCategories : List DefaultCategory)
    (categories : List Category) : List DefaultCategory :=
  (defaultCategories.filter (fun defaultCat =>
    ! categories.any (fun existingCat =>
      jsToLower existingCat.name = jsToLower defaultCat.name))).take 6

/-! ## Transaction entry form -/

/-- The form-local draft state of `AddTransactionForm`.  The attached file
is identified by its name. -/
structure TransactionDraft where
  type : Direction
  amount : String
  description : String
  accountId : String
  categoryId : String
  date : String
  receiptFile : Option String
deriving DecidableEq

/-- The argument object of `createTransaction`. -/
structure TransactionPayload where
  type : Direction
  amount : JSNum
  description : String
  account_id : String
  category_id : String
  date : String
  status : String
  receiptFile : Option String
deriving DecidableEq

/-- Observable result of the awaited `createTransaction` call: fulfilled,
or rejected with an error whose `message` may be absent. -/
inductive StoreResult where
  | success
  | failure (message : Option String)
deriving DecidableEq

/-- A toast emitted by the form. -/
inductive Notification where
  | error (message : String)
  | success (message : String)
deriving DecidableEq

/-- Everything observable about one run of `handleSubmit`: the create
calls issued, the toasts shown, and the draft state afterwards. -/
structure SubmitOutcome where
  calls : List TransactionPayload
  notifications : List Notification
  finalDraft : TransactionDraft
deriving DecidableEq

/-- Toast text for a missing required field. -/
def missingFieldsMsg : String := "Por favor, preencha todos os campos obrigatórios"

/-- Toast text for an invalid amount. -/
def invalidAmountMsg : String := "Valor deve ser um número positivo"

/-- Fallback toast text when the store error has no usable message. -/
def genericFailureMsg : String := "Erro ao adicionar transação"

/-- Direction-specific success toast text. -/
def successMsg (type : Direction) : String :=
  (if type = Direction.income then ("Receita") else ("Despesa")) ++
    " adicionada com sucesso!"

/-- JS `error.message || fallback`: the fallback is used when `message` is
absent or the empty string (falsy). -/
def jsFalsyOr (message : Option String) (fallback : String) : String :=
  match message with
  | none => fallback
  | some m => if m = "" then fallback else m

/-- The field resets performed after a successful submission; `today`
models `new Date().toISOString().split('T')[0]`. -/
def resetDraft (draft : TransactionDraft) (today : String) : TransactionDraft :=
  { draft with
    amount := ""
    description := ""
    accountId := ""
    categoryId := ""
    date := today
    receiptFile := none }

/-- The payload built by `handleSubmit` from a draft and the parsed
amount. -/
def mkPayload (draft : TransactionDraft) (numericAmount : JSNum) :
    TransactionPayload :=
  { type := draft.type
    amount := numericAmount
    description := draft.description
    account_id := draft.accountId
    category_id := draft.categoryId
    date := draft.date
    status := "completed"
    receiptFile := draft.receiptFile }

/-- The submit handler `handleSubmit` from `AddTransactionForm.tsx`.  `createTransaction` is
the Transaction Store collaborator; `today` is the current date used by
the reset.  The try/catch around the awaited call is embedded by matching
on the call result, so the function is total: no error escapes. -/
def handleSubmit (draft : TransactionDraft)
    (createTransaction : TransactionPayload → StoreResult)
    (today : String) : SubmitOutcome :=
  if draft.amount = "" ∨ draft.description = "" ∨ draft.accountId = "" ∨
      draft.categoryId = "" then
    { calls := []
      notifications := [Notification.error missingFieldsMsg]
      finalDraft := draft }
  else
    match parseFloat (normalizeAmount draft.amount) with
    | none =>
        { calls := []
          notifications := [Notification.error invalidAmountMsg]
          finalDraft := draft }
    | some numericAmount =>
        if jsLeZero numericAmount then
          { calls := []
            notifications := [Notification.error invalidAmountMsg]
            finalDraft := draft }
        else
          let payload := mkPayload draft numericAmount
          match createTransaction payload with
          | StoreResult.success =>
              { calls := [payload]
                notifications := [Notification.success (successMsg draft.type)]
                finalDraft := resetDraft draft today }
          | StoreResult.failure message =>
              { calls := [payload]
                notifications :=
                  [Notification.error (jsFalsyOr message genericFailureMsg)]
                finalDraft := draft }

/-- The direction-toggle handler
`onValueChange={(value) => setType(value)}`: it only sets `type`. -/
def onDirectionChange (draft : TransactionDraft) (value : Direction) :
    TransactionDraft :=
  { draft with type := value }

/-! ## Concrete instances used to exercise the model -/

/-- A store collaborator whose create call always fulfils. -/
def okStore : TransactionPayload → StoreResult := fun _ => StoreResult.success

/-- A store collaborator whose create call always rejects with the given
error message. -/
def failStore (message : Option String) : TransactionPayload → StoreResult :=
  fun _ => StoreResult.failure message

/-- A fully filled draft with a comma-decimal amount. -/
def sampleDraft : TransactionDraft :=
  { type := Direction.expense
    amount := "10,50"
    description := "Almoço"
    accountId := "acc-1"
    categoryId := "cat-1"
    date := "2026-10-10"
    receiptFile := some ("nota.pdf") }

/-- A fully filled draft whose amount is the literal `Infinity`. -/
def infinityDraft : TransactionDraft :=
  { type := Direction.expense
    amount := "Infinity"
    description := "x"
    accountId := "acc-1"
    categoryId := "cat-1"
    date := "2026-10-10"
    receiptFile := none }

/-- A fully filled draft with an unparsable amount. -/
def abcDraft : TransactionDraft :=
  { type := Direction.expense
    amount := "abc"
    description := "x"
    accountId := "acc-1"
    categoryId := "cat-1"
    date := "2026-10-10"
    receiptFile := none }

/-- A draft with an unparsable amount and an empty category. -/
def missingCatDraft : TransactionDraft :=
  { type := Direction.expense
    amount := "abc"
    description := "x"
    accountId := "acc-1"
    categoryId := ""
    date := "2026-10-10"
    receiptFile := none }

/-- A draft whose amount has a numeric proper initial segment. -/
def draftTenAbc : TransactionDraft :=
  { type := Direction.expense
    amount := "10abc"
    description := "x"
    accountId := "acc-1"
    categoryId := "cat-1"
    date := "2026-10-10"
    receiptFile := none }

/-- A draft whose amount contains two commas. -/
def draftOneFiveNine : TransactionDraft :=
  { type := Direction.expense
    amount := "1,5,9"
    description := "x"
    accountId := "acc-1"
    categoryId := "cat-1"
    date := "2026-10-10"
    receiptFile := none }

/-- A sample income category. -/
def catIncome : Category :=
  { id := "c1", name := "Salário", icon := "💰", color := "#0f0",
    transaction_type := Direction.income }

/-- A sample expense category. -/
def catExpense : Category :=
  { id := "c2", name := "Alimentação", icon := "🍔", color := "#f00",
    transaction_type := Direction.expense }

/-- A draft whose selected category is the expense category `catExpense`. -/
def staleDraft : TransactionDraft :=
  { type := Direction.expense
    amount := "10"
    description := "x"
    accountId := "acc-1"
    categoryId := "c2"
    date := "2026-10-10"
    receiptFile := none }

/-- Existing categories used for the suggestion example. -/
def existingCats : List Category :=
  [{ id := "e1", name := "Alimentação", icon := "🍔", color := "#f00",
     transaction_type := Direction.expense },
   { id := "e2", name := "Transporte", icon := "🚗", color := "#00f",
     transaction_type := Direction.expense }]

/-- A catalog entry whose name matches no existing category. -/
def catalogLazer : DefaultCategory :=
  { name := "Lazer", icon := "🎮", color := "#0ff",
    transaction_type := Direction.expense }

/-- A small default catalog whose first entry case-insensitively matches the
existing category named Alimentação. -/
def defaultCatalog : List DefaultCategory :=
  [{ name := "alimentação", icon := "🍔", color := "#f00",
     transaction_type := Direction.expense },
   catalogLazer,
   { name := "Pets", icon := "🐶", color := "#ff0",
     transaction_type := Direction.expense }]

/-! ## Helper lemmas about `handleSubmit` -/

theorem handleSubmit_success_eq (draft : TransactionDraft)
    (createTransaction : TransactionPayload → StoreResult) (today : String)
    (n : JSNum)
    (h1 : draft.amount ≠ "") (h2 : draft.description ≠ "")
    (h3 : draft.accountId ≠ "") (h4 : draft.categoryId ≠ "")
    (hparse : parseFloat (normalizeAmount draft.amount) = some n)
    (hpos : jsLeZero n = false)
    (hstore : createTransaction (mkPayload draft n) = StoreResult.success) :
    handleSubmit draft createTransaction today =
      { calls := [mkPayload draft n]
        notifications := [Notification.success (successMsg draft.type)]
        finalDraft := resetDraft draft today } := by
  have hcond : ¬(draft.amount = "" ∨ draft.description = "" ∨
      draft.accountId = "" ∨ draft.categoryId = "") := by
    push_neg
    exact ⟨h1, h2, h3, h4⟩
  unfold handleSubmit
  rw [if_neg hcond, hparse]
  simp [hpos, hstore]

theorem handleSubmit_failure_eq (draft : TransactionDraft)
    (createTransaction : TransactionPayload → StoreResult) (today : String)
    (n : JSNum) (message : Option String)
    (h1 : draft.amount ≠ "") (h2 : draft.description ≠ "")
    (h3 : draft.accountId ≠ "") (h4 : draft.categoryId ≠ "")
    (hparse : parseFloat (normalizeAmount draft.amount) = some n)
    (hpos : jsLeZero n = false)
    (hstore : createTransaction (mkPayload draft n) =
      StoreResult.failure message) :
    handleSubmit draft createTransaction today =
      { calls := [mkPayload draft n]
        notifications :=
          [Notification.error (jsFalsyOr message genericFailureMsg)]
        finalDraft := draft } := by
  have hcond : ¬(draft.amount = "" ∨ draft.description = "" ∨
      draft.accountId = "" ∨ draft.categoryId = "") := by
    push_neg
    exact ⟨h1, h2, h3, h4⟩
  unfold handleSubmit
  rw [if_neg hcond, hparse]
  simp [hpos, hstore]

theorem handleSubmit_nan_eq (draft : TransactionDraft)
    (createTransaction : TransactionPayload → StoreResult) (today : String)
    (h1 : draft.amount ≠ "") (h2 : draft.description ≠ "")
    (h3 : draft.accountId ≠ "") (h4 : draft.categoryId ≠ "")
    (hparse : parseFloat (normalizeAmount draft.amount) = none) :
    handleSubmit draft createTransaction today =
      { calls := []
        notifications := [Notification.error invalidAmountMsg]
        finalDraft := draft } := by
  have hcond : ¬(draft.amount = "" ∨ draft.description = "" ∨
      draft.accountId = "" ∨ draft.categoryId = "") := by
    push_neg
    exact ⟨h1, h2, h3, h4⟩
  unfold handleSubmit
  rw [if_neg hcond, hparse]

theorem handleSubmit_nonpos_eq (draft : TransactionDraft)
    (createTransaction : TransactionPayload → StoreResult) (today : String)
    (n : JSNum)
    (h1 : draft.amount ≠ "") (h2 : draft.description ≠ "")
    (h3 : draft.accountId ≠ "") (h4 : draft.categoryId ≠ "")
    (hparse : parseFloat (normalizeAmount draft.amount) = some n)
    (hle : jsLeZero n = true) :
    handleSubmit draft createTransaction today =
      { calls := []
        notifications := [Notification.error invalidAmountMsg]
        finalDraft := draft } := by
  have hcond : ¬(draft.amount = "" ∨ draft.description = "" ∨
      draft.accountId = "" ∨ draft.categoryId = "") := by
    push_neg
    exact ⟨h1, h2, h3, h4⟩
  unfold handleSubmit
  rw [if_neg hcond, hparse]
  simp [hle]

/-! ## Claims -/

/-- C1: when amount, description, account id and category id are all
non-empty and the amount passes validation (parses to a non-NaN value that
is not ≤ 0), `handleSubmit` issues exactly one create call to the
Transaction Store — whatever the store then answers — carrying the parsed
numeric amount, the selected type, the description, the account and
category ids, the date, the fixed status completed, and the optional
attached file. -/
theorem C1_one_create_call (draft : TransactionDraft)
    (createTransaction : TransactionPayload → StoreResult) (today : String)
    (n : JSNum)
    (h1 : draft.amount ≠ "") (h2 : draft.description ≠ "")
    (h3 : draft.accountId ≠ "") (h4 : draft.categoryId ≠ "")
    (hparse : parseFloat (normalizeAmount draft.amount) = some n)
    (hpos : jsLeZero n = false) :
    (handleSubmit draft createTransaction today).calls =
      [{ type := draft.type
         amount := n
         description := draft.description
         account_id := draft.accountId
         category_id := draft.categoryId
         date := draft.date
         status := "completed"
         receiptFile := draft.receiptFile }] := by
  cases hs : createTransaction (mkPayload draft n) with
  | success =>
      rw [handleSubmit_success_eq draft createTransaction today n
        h1 h2 h3 h4 hparse hpos hs]
      rfl
  | failure message =>
      rw [handleSubmit_failure_eq draft createTransaction today n message
        h1 h2 h3 h4 hparse hpos hs]
      rfl

/-- C1 witness: the concrete draft with amount 10,50 produces exactly the
expected create call. -/
theorem C1_one_create_call_witness :
    (handleSubmit sampleDraft okStore ("2026-10-11")).calls =
      [{ type := Direction.expense
         amount := JSNum.finite (21 / 2)
         description := "Almoço"
         account_id := "acc-1"
         category_id := "cat-1"
         date := "2026-10-10"
         status := "completed"
         receiptFile := some ("nota.pdf") }] :=
  C1_one_create_call sampleDraft okStore ("2026-10-11") (JSNum.finite (21 / 2))
    (by decide) (by decide) (by decide) (by decide) (by decide) (by decide)

/-- C2 counterexample: the amount string Infinity does not parse to a
finite number, yet the submission is not rejected: a create call is issued
and the success toast is shown.  The code checks `isNaN`, not
finiteness. -/
theorem C2_infinity_counterexample :
    parseFloat (normalizeAmount infinityDraft.amount) = some JSNum.posInf ∧
    (handleSubmit infinityDraft okStore ("2026-10-11")).calls =
      [mkPayload infinityDraft JSNum.posInf] ∧
    (handleSubmit infinityDraft okStore ("2026-10-11")).notifications =
      [Notification.success (successMsg Direction.expense)] := by
  decide

/-- C2 (amended): for every draft whose four required fields are non-empty,
submission is rejected with the invalid-amount notification and no create
call if and only if, after normalizing the first decimal comma to a point,
the amount parses to NaN or to a value ≤ 0 (non-finite positive parses
such as Infinity are accepted); in particular 10,50 and 10.50 are accepted
as 10.50 while 0, -5 and abc are rejected. -/
theorem C2_amount_validation (draft : TransactionDraft)
    (createTransaction : TransactionPayload → StoreResult) (today : String)
    (h1 : draft.amount ≠ "") (h2 : draft.description ≠ "")
    (h3 : draft.accountId ≠ "") (h4 : draft.categoryId ≠ "") :
    (((handleSubmit draft createTransaction today).calls = [] ∧
      (handleSubmit draft createTransaction today).notifications =
        [Notification.error invalidAmountMsg]) ↔
      (parseFloat (normalizeAmount draft.amount) = none ∨
        ∃ n, parseFloat (normalizeAmount draft.amount) = some n ∧
          jsLeZero n = true)) ∧
    parseFloat (normalizeAmount ("10,50")) = some (JSNum.finite (21 / 2)) ∧
    parseFloat (normalizeAmount ("10.50")) = some (JSNum.finite (21 / 2)) ∧
    jsLeZero (JSNum.finite (21 / 2)) = false ∧
    parseFloat (normalizeAmount ("0")) = some (JSNum.finite 0) ∧
    jsLeZero (JSNum.finite 0) = true ∧
    parseFloat (normalizeAmount ("-5")) = some (JSNum.finite (-5)) ∧
    jsLeZero (JSNum.finite (-5)) = true ∧
    parseFloat (normalizeAmount ("abc")) = none := by
  refine ⟨⟨?_, ?_⟩, by decide, by decide, by decide, by decide, by decide,
    by decide, by decide, by decide⟩
  · rintro ⟨hcalls, -⟩
    cases hp : parseFloat (normalizeAmount draft.amount) with
    | none => exact Or.inl rfl
    | some n =>
        cases hz : jsLeZero n with
        | true => exact Or.inr ⟨n, rfl, hz⟩
        | false =>
            exfalso
            cases hs : createTransaction (mkPayload draft n) with
            | success =>
                rw [handleSubmit_success_eq draft createTransaction today n
                  h1 h2 h3 h4 hp hz hs] at hcalls
                exact List.cons_ne_nil _ _ hcalls
            | failure message =>
                rw [handleSubmit_failure_eq draft createTransaction today n
                  message h1 h2 h3 h4 hp hz hs] at hcalls
                exact List.cons_ne_nil _ _ hcalls
  · rintro (hp | ⟨n, hp, hz⟩)
    · rw [handleSubmit_nan_eq draft createTransaction today h1 h2 h3 h4 hp]
      exact ⟨rfl, rfl⟩
    · rw [handleSubmit_nonpos_eq draft createTransaction today n
        h1 h2 h3 h4 hp hz]
      exact ⟨rfl, rfl⟩

/-- C2 witness: the amended equivalence applied to the concrete draft with
amount abc, whose rejection follows from the NaN parse. -/
theorem C2_amount_validation_witness :
    (handleSubmit abcDraft okStore ("2026-10-11")).calls = [] ∧
    (handleSubmit abcDraft okStore ("2026-10-11")).notifications =
      [Notification.error invalidAmountMsg] :=
  ((C2_amount_validation abcDraft okStore ("2026-10-11")
    (by decide) (by decide) (by decide) (by decide)).1).mpr
    (Or.inl (by decide))

/-- C3: whenever at least one of amount, description, account id or
category id is empty, `handleSubmit` rejects with the missing-field
notification: no create call is issued, exactly one error notification is
shown, and the draft is returned unchanged — even when the amount would
also fail to parse, the missing-field error wins because it is checked
first. -/
theorem C3_missing_field_rejects (draft : TransactionDraft)
    (createTransaction : TransactionPayload → StoreResult) (today : String)
    (h : draft.amount = "" ∨ draft.description = "" ∨
      draft.accountId = "" ∨ draft.categoryId = "") :
    handleSubmit draft createTransaction today =
      { calls := []
        notifications := [Notification.error missingFieldsMsg]
        finalDraft := draft } := by
  unfold handleSubmit
  rw [if_pos h]

/-- C3 witness: a draft with an empty category and an unparsable amount is
rejected with the missing-field notification, untouched. -/
theorem C3_missing_field_rejects_witness :
    handleSubmit missingCatDraft okStore ("2026-10-11") =
      { calls := []
        notifications := [Notification.error missingFieldsMsg]
        finalDraft := missingCatDraft } :=
  C3_missing_field_rejects missingCatDraft okStore ("2026-10-11") (by decide)

/-- C4: the Funding Source Unifier output has length equal to the sum of
the input lengths; position i holds the i-th account (projected) when
i is below the account count and otherwise the corresponding credit card
(projected), so every account entry precedes every credit-card entry and
each source collection keeps its internal order; each account entry
carries its account subtype (and no bank name), each credit-card entry
carries its bank name; empty inputs yield empty output. -/
theorem C4_funding_source_unifier (accounts : List Account)
    (creditCards : List CreditCard) :
    (allAccounts accounts creditCards).length =
      accounts.length + creditCards.length ∧
    (∀ i : Nat, (allAccounts accounts creditCards)[i]? =
      if i < accounts.length then (accounts[i]?).map accountTarget
      else (creditCards[i - accounts.length]?).map cardTarget) ∧
    (∀ a : Account, (accountTarget a).accountType = a.type ∧
      (accountTarget a).type = TargetKind.account ∧
      (accountTarget a).bankName = none) ∧
    (∀ c : CreditCard, (cardTarget c).bankName = some c.bank_name ∧
      (cardTarget c).type = TargetKind.credit_card ∧
      (cardTarget c).accountType = "credit_card") ∧
    allAccounts [] [] = [] := by
  refine ⟨by simp [allAccounts], ?_, fun a => ⟨rfl, rfl, rfl⟩,
    fun c => ⟨rfl, rfl, rfl⟩, rfl⟩
  intro i
  simp only [allAccounts]
  by_cases hi : i < accounts.length
  · rw [List.getElem?_append_left (by simpa using hi), List.getElem?_map,
      if_pos hi]
  · rw [List.getElem?_append_right (by simpa using Nat.le_of_not_lt hi),
      List.getElem?_map, if_neg hi]
    simp

/-- C5: category filtering returns exactly the subsequence of the input
whose transaction type equals the selected direction: it is a sublist of
the input (so relative order is preserved), every returned category has
the selected direction, every input category with the selected direction
is returned, and the two partition filters of the Category Management
Panel are instances of the same filter. -/
theorem C5_category_filtering (categories : List Category) (d : Direction) :
    (filteredCategories categories d).Sublist categories ∧
    (∀ c, c ∈ filteredCategories categories d → c.transaction_type = d) ∧
    (∀ c, c ∈ categories → c.transaction_type = d →
      c ∈ filteredCategories categories d) ∧
    incomeCategories categories = filteredCategories categories
      Direction.income ∧
    expenseCategories categories = filteredCategories categories
      Direction.expense := by
  refine ⟨?_, ?_, ?_, rfl, rfl⟩
  · simpa only [filteredCategories] using
      List.filter_sublist (l := categories)
  · intro c hc
    have h := List.mem_filter.mp hc
    simpa using h.2
  · intro c hc ht
    exact List.mem_filter.mpr ⟨hc, by simpa using ht⟩

/-- C5 witness: the income category is kept by the income filter on a
concrete two-category collection. -/
theorem C5_category_filtering_witness :
    catIncome ∈ filteredCategories [catIncome, catExpense]
      Direction.income :=
  (C5_category_filtering [catIncome, catExpense] Direction.income).2.2.1
    catIncome (by decide) (by decide)

/-- C6: after a successful submission the amount, description, account id
and category id are reset to empty, the date is reset to the current
date, the attached file is cleared, the direction-specific success toast
is the only notification, and the direction selector keeps its value; the
two direction-specific messages really differ. -/
theorem C6_success_resets (draft : TransactionDraft)
    (createTransaction : TransactionPayload → StoreResult) (today : String)
    (n : JSNum)
    (h1 : draft.amount ≠ "") (h2 : draft.description ≠ "")
    (h3 : draft.accountId ≠ "") (h4 : draft.categoryId ≠ "")
    (hparse : parseFloat (normalizeAmount draft.amount) = some n)
    (hpos : jsLeZero n = false)
    (hstore : createTransaction (mkPayload draft n) = StoreResult.success) :
    (handleSubmit draft createTransaction today).finalDraft =
      { type := draft.type
        amount := ""
        description := ""
        accountId := ""
        categoryId := ""
        date := today
        receiptFile := none } ∧
    (handleSubmit draft createTransaction today).notifications =
      [Notification.success (successMsg draft.type)] ∧
    (handleSubmit draft createTransaction today).finalDraft.type =
      draft.type ∧
    successMsg Direction.income ≠ successMsg Direction.expense := by
  rw [handleSubmit_success_eq draft createTransaction today n
    h1 h2 h3 h4 hparse hpos hstore]
  exact ⟨rfl, rfl, rfl, by decide⟩

/-- C6 witness: the concrete draft is reset to the empty draft with the
new current date after a successful submission. -/
theorem C6_success_resets_witness :
    (handleSubmit sampleDraft okStore ("2026-10-11")).finalDraft =
      { type := Direction.expense
        amount := ""
        description := ""
        accountId := ""
        categoryId := ""
        date := "2026-10-11"
        receiptFile := none } ∧
    (handleSubmit sampleDraft okStore ("2026-10-11")).notifications =
      [Notification.success (successMsg Direction.expense)] ∧
    (handleSubmit sampleDraft okStore ("2026-10-11")).finalDraft.type =
      Direction.expense ∧
    successMsg Direction.income ≠ successMsg Direction.expense :=
  C6_success_resets sampleDraft okStore ("2026-10-11")
    (JSNum.finite (21 / 2)) (by decide) (by decide) (by decide) (by decide)
    (by decide) (by decide) (by decide)

/-- C7: when the store call fails, `handleSubmit` still returns an
ordinary outcome (the error is caught at the call site and never
rethrown), the whole draft is kept unchanged for retry, exactly one
create call was issued, and the single error notification carries the
store's failure message when it is present and non-empty and the generic
message when it is absent. -/
theorem C7_failure_preserves_draft (draft : TransactionDraft)
    (createTransaction : TransactionPayload → StoreResult) (today : String)
    (n : JSNum) (message : Option String)
    (h1 : draft.amount ≠ "") (h2 : draft.description ≠ "")
    (h3 : draft.accountId ≠ "") (h4 : draft.categoryId ≠ "")
    (hparse : parseFloat (normalizeAmount draft.amount) = some n)
    (hpos : jsLeZero n = false)
    (hstore : createTransaction (mkPayload draft n) =
      StoreResult.failure message) :
    (handleSubmit draft createTransaction today).finalDraft = draft ∧
    (handleSubmit draft createTransaction today).calls =
      [mkPayload draft n] ∧
    (handleSubmit draft createTransaction today).notifications =
      [Notification.error (jsFalsyOr message genericFailureMsg)] ∧
    (∀ m, message = some m → m ≠ "" →
      (handleSubmit draft createTransaction today).notifications =
        [Notification.error m]) ∧
    (message = none →
      (handleSubmit draft createTransaction today).notifications =
        [Notification.error genericFailureMsg]) := by
  rw [handleSubmit_failure_eq draft createTransaction today n message
    h1 h2 h3 h4 hparse hpos hstore]
  refine ⟨rfl, rfl, rfl, ?_, ?_⟩
  · intro m hm hne
    subst hm
    simp [jsFalsyOr, hne]
  · intro hm
    subst hm
    rfl

/-- C7 witness: a failing store with the concrete message Falha leaves the
concrete draft intact and surfaces that message. -/
theorem C7_failure_preserves_draft_witness :
    (handleSubmit sampleDraft (failStore (some ("Falha")))
      "2026-10-11").finalDraft = sampleDraft ∧
    (handleSubmit sampleDraft (failStore (some ("Falha")))
      "2026-10-11").calls =
      [mkPayload sampleDraft (JSNum.finite (21 / 2))] ∧
    (handleSubmit sampleDraft (failStore (some ("Falha")))
      "2026-10-11").notifications =
      [Notification.error (jsFalsyOr (some ("Falha")) genericFailureMsg)] ∧
    (∀ m, (some ("Falha") : Option String) = some m → m ≠ "" →
      (handleSubmit sampleDraft (failStore (some ("Falha")))
        "2026-10-11").notifications = [Notification.error m]) ∧
    ((some ("Falha") : Option String) = none →
      (handleSubmit sampleDraft (failStore (some ("Falha")))
        "2026-10-11").notifications =
        [Notification.error genericFailureMsg]) :=
  C7_failure_preserves_draft sampleDraft (failStore (some ("Falha")))
    "2026-10-11" (JSNum.finite (21 / 2)) (some ("Falha")) (by decide)
    (by decide) (by decide) (by decide) (by decide) (by decide) (by decide)

/-- C8: toggling the direction changes only the `type` field of the
draft — amount, description, account id, category id, date and file all
keep their values; in particular a previously selected category id is not
auto-cleared, shown on a concrete draft whose selected expense category is
no longer in the filtered list after toggling to income. -/
theorem C8_direction_toggle_only_type (draft : TransactionDraft)
    (value : Direction) :
    (onDirectionChange draft value).type = value ∧
    (onDirectionChange draft value).amount = draft.amount ∧
    (onDirectionChange draft value).description = draft.description ∧
    (onDirectionChange draft value).accountId = draft.accountId ∧
    (onDirectionChange draft value).categoryId = draft.categoryId ∧
    (onDirectionChange draft value).date = draft.date ∧
    (onDirectionChange draft value).receiptFile = draft.receiptFile ∧
    (onDirectionChange staleDraft Direction.income).categoryId =
      catExpense.id ∧
    catExpense.transaction_type ≠ Direction.income ∧
    catExpense.id ∉ (filteredCategories [catIncome, catExpense]
      Direction.income).map Category.id :=
  ⟨rfl, rfl, rfl, rfl, rfl, rfl, rfl, by decide, by decide, by decide⟩

/-- C9: the suggestion list contains at most six entries, is a sublist of
the static catalog (so it respects catalog order), contains only catalog
entries whose lower-cased name differs from every existing category's
lower-cased name, and — whenever it has fewer than six entries — contains
every such catalog entry. -/
theorem C9_category_suggestions (defaultCategories : List DefaultCategory)
    (categories : List Category) :
    (suggestedCategories defaultCategories categories).length ≤ 6 ∧
    (suggestedCategories defaultCategories categories).Sublist
      defaultCategories ∧
    (∀ dc, dc ∈ suggestedCategories defaultCategories categories →
      ∀ ec, ec ∈ categories → jsToLower ec.name ≠ jsToLower dc.name) ∧
    ((suggestedCategories defaultCategories categories).length < 6 →
      ∀ dc, dc ∈ defaultCategories →
        (∀ ec, ec ∈ categories → jsToLower ec.name ≠ jsToLower dc.name) →
        dc ∈ suggestedCategories defaultCategories categories) := by
  refine ⟨List.length_take_le 6 _, ?_, ?_, ?_⟩
  · exact (List.take_sublist 6 _).trans
      (List.filter_sublist defaultCategories)
  · intro dc hdc ec hec
    have hmem := List.mem_of_mem_take hdc
    have h := (List.mem_filter.mp hmem).2
    simp only [Bool.not_eq_true', List.any_eq_false] at h
    simpa using h ec hec
  · intro hlen dc hdc hnone
    have hpool : (defaultCategories.filter (fun defaultCat =>
        ! categories.any (fun existingCat =>
          jsToLower existingCat.name = jsToLower defaultCat.name))).length
          < 6 := by
      by_contra hge
      have : (suggestedCategories defaultCategories categories).length = 6 := by
        simp only [suggestedCategories, List.length_take]
        omega
      omega
    have htake : suggestedCategories defaultCategories categories =
        defaultCategories.filter (fun defaultCat =>
          ! categories.any (fun existingCat =>
            jsToLower existingCat.name = jsToLower defaultCat.name)) :=
      List.take_of_length_le (Nat.le_of_lt hpool)
    rw [htake]
    refine List.mem_filter.mpr ⟨hdc, ?_⟩
    simp only [Bool.not_eq_true', List.any_eq_false]
    intro ec hec
    simpa using hnone ec hec

/-- C9 witness: with existing categories Alimentação and Transporte and a
three-entry catalog, the catalog entry Lazer is suggested because the list
has fewer than six entries and its name matches no existing category. -/
theorem C9_category_suggestions_witness :
    catalogLazer ∈ suggestedCategories defaultCatalog existingCats :=
  (C9_category_suggestions defaultCatalog existingCats).2.2.2
    (by decide) catalogLazer (by decide) (by decide)

/-- C10: lenient amount parsing — only the first comma is normalized to a
point and `parseFloat` reads the longest numeric initial segment, so
10abc is accepted and submitted as 10, and 1,5,9 becomes 1.5,9 and is
accepted and submitted as 1.5. -/
theorem C10_numeric_prefix_accepted :
    parseFloat (normalizeAmount ("10abc")) = some (JSNum.finite 10) ∧
    normalizeAmount ("1,5,9") = "1.5,9" ∧
    parseFloat (normalizeAmount ("1,5,9")) = some (JSNum.finite (3 / 2)) ∧
    (handleSubmit draftTenAbc okStore ("2026-10-11")).calls =
      [mkPayload draftTenAbc (JSNum.finite 10)] ∧
    (handleSubmit draftOneFiveNine okStore ("2026-10-11")).calls =
      [mkPayload draftOneFiveNine (JSNum.finite (3 / 2))] := by
  decide

end ExpensePilot
